import Mathlib

/-!
# Verification of the yourcraft collision/physics core

Shallow embedding of the collision-resolution routine (`playerCollision`,
src/collision.c), the per-frame physics step (`events`, `playerLimits`,
src/game.c) and the world initialisation (`loadGame`, src/game.c).

The C code stores positions, sizes and velocities as `float`; all constants
appearing in the program are small integers and all arithmetic consists of
additions, subtractions and comparisons, which are exact for the values the
program manipulates, so the embedding uses `ℚ`.  C's in-place mutation of the
`Man` and `GameState` structs is rendered as explicit state passing: a
function that mutates `Man` and returns an `int` becomes a function
`Man → ... → Nat × Man`.
-/

/-- The player struct (`Man`, src/struct.h).  The C arrays `cx[2]`, `cy[2]`
are flattened into the four fields `cx0 cx1 cy0 cy1`. -/
structure Man where
  x : ℚ
  y : ℚ
  lookDirection : ℤ
  cx0 : ℚ
  cx1 : ℚ
  cy0 : ℚ
  cy1 : ℚ
  size_x : ℚ
  size_y : ℚ
  vx : ℚ
  vy : ℚ
  attack : ℤ
  att_sx : ℚ
  att_sy : ℚ
  att_x : ℚ
  att_y : ℚ
  deriving DecidableEq, Repr

/-- A static platform (`Platform_x`, src/struct.h). -/
structure Platform_x where
  x : ℚ
  y : ℚ
  cx0 : ℚ
  cx1 : ℚ
  cy0 : ℚ
  cy1 : ℚ
  size_x : ℚ
  size_y : ℚ
  deriving DecidableEq, Repr

/-- The world state (`GameState`, src/struct.h): the player and the used
prefix of the fixed platform array (`plat[100]` together with
`platform_used` becomes a list).  The renderer handle and the keyboard
toggle flags play no part in the physics and are omitted. -/
structure GameState where
  man : Man
  plat : List Platform_x
  deriving DecidableEq, Repr

namespace Collision

/-- `bottom` edge flag of `playerCollision` (src/collision.c lines 11-14):
`bottomEnv || bottomPla`. -/
abbrev edgeBottom (man : Man) (oy0 oy1 : ℚ) : Prop :=
  (man.cy0 < oy1 ∧ oy1 < man.cy1) ∨ (oy0 < man.cy1 ∧ man.cy1 < oy1)

/-- `top` edge flag (src/collision.c lines 15-18): `topEnv || topPla`. -/
abbrev edgeTop (man : Man) (oy0 oy1 : ℚ) : Prop :=
  (man.cy0 < oy0 ∧ oy0 < man.cy1) ∨ (oy0 < man.cy0 ∧ man.cy0 < oy1)

/-- `right` edge flag (src/collision.c lines 19-22): `rightEnv || rightPla`. -/
abbrev edgeRight (man : Man) (ox0 ox1 : ℚ) : Prop :=
  (man.cx0 < ox1 ∧ ox1 < man.cx1) ∨ (ox0 < man.cx1 ∧ man.cx1 < ox1)

/-- `left` edge flag (src/collision.c lines 23-26): `leftEnv || leftPla`. -/
abbrev edgeLeft (man : Man) (ox0 ox1 : ℚ) : Prop :=
  (man.cx0 < ox0 ∧ ox0 < man.cx1) ∨ (ox0 < man.cx0 ∧ man.cx0 < ox1)

/-- The X-axis pass of `playerCollision` (src/collision.c lines 32-52):
returns the pair `(overlap_x, direction[0])`. -/
def axisX (man : Man) (ox0 ox1 oy0 oy1 : ℚ) : ℚ × ℕ :=
  if edgeBottom man oy0 oy1 ∨ edgeTop man oy0 oy1 then
    if man.cx1 > ox0 ∧ man.cx1 < ox1 then (ox0 - man.cx1, 1)
    else if man.cx0 < ox1 ∧ man.cx0 > ox0 then (man.cx0 - ox1, 2)
    else (0, 0)
  else (0, 0)

/-- The Y-axis pass of `playerCollision` (src/collision.c lines 53-73):
returns the pair `(overlap_y, direction[1])`. -/
def axisY (man : Man) (ox0 ox1 oy0 oy1 : ℚ) : ℚ × ℕ :=
  if edgeLeft man ox0 ox1 ∨ edgeRight man ox0 ox1 then
    if man.cy1 > oy0 ∧ man.cy1 < oy1 then (oy0 - man.cy1, 1)
    else if man.cy0 < oy1 ∧ man.cy0 > oy0 then (man.cy0 - oy1, 2)
    else (0, 0)
  else (0, 0)

end Collision

open Collision in
/-- `playerCollision` (src/collision.c lines 10-113).  The obstacle's
bounding box `obj_x[2]`, `obj_y[2]` is passed as `ox0 ox1 oy0 oy1`.  The
returned pair is the C function's `int` result together with the mutated
actor. -/
def playerCollision (man : Man) (ox0 ox1 oy0 oy1 : ℚ) : ℕ × Man :=
  let a := axisX man ox0 ox1 oy0 oy1
  let b := axisY man ox0 ox1 oy0 oy1
  if a.1 = 0 ∧ b.1 = 0 then (0, man)
  else if a.1 > b.1 ∨ b.1 = 0 then
    if a.2 = 1 then
      (1, { man with x := ox0 - man.size_x,
                     vx := if man.vx > 0 then 0 else man.vx })
    else if a.2 = 2 then
      (2, { man with x := ox1,
                     vx := if man.vx < 0 then 0 else man.vx })
    else (0, man)
  else if b.1 > a.1 ∨ a.1 = 0 then
    if b.2 = 1 then
      (3, { man with y := oy0 - man.size_y,
                     vy := if man.vy > 0 then 0 else man.vy })
    else if b.2 = 2 then
      (4, { man with y := oy1,
                     vy := if man.vy < 0 then 0 else man.vy })
    else (0, man)
  else (0, man)

namespace Limits

/-- First stage of `playerLimits` (src/game.c lines 76-87), identical for
both components: hard clamp to `[-20, 20]`. -/
def clampStage (v : ℚ) : ℚ :=
  if v > 20 then 20 else if v < -20 then -20 else v

/-- Second stage of `playerLimits` for `vx` (src/game.c lines 89-94):
the decay step. -/
def decayStageX (v : ℚ) : ℚ :=
  if v < 20 ∧ v > 5 then v - 5
  else if v > -20 ∧ v < -5 then v + 5
  else v

/-- Second stage of `playerLimits` for `vy` (src/game.c lines 95-100).
Note the first guard is `vy > -5`, not `vy > 5` as for `vx`. -/
def decayStageY (v : ℚ) : ℚ :=
  if v < 20 ∧ v > -5 then v - 5
  else if v > -20 ∧ v < -5 then v + 5
  else v

/-- Third stage of `playerLimits` (src/game.c lines 102-113), identical for
both components: snap small magnitudes to zero. -/
def snapStage (v : ℚ) : ℚ :=
  if v ≤ 5 ∧ v ≥ 0 then 0
  else if v ≥ -5 ∧ v ≤ 0 then 0
  else v

/-- The complete `playerLimits` pipeline applied to `vx`: the three stages
run in sequence on the same field. -/
def limitVX (v : ℚ) : ℚ := snapStage (decayStageX (clampStage v))

/-- The complete `playerLimits` pipeline applied to `vy`. -/
def limitVY (v : ℚ) : ℚ := snapStage (decayStageY (clampStage v))

end Limits

open Limits in
/-- `playerLimits` (src/game.c lines 74-117).  The three if-chains act on
`vx` and `vy` independently, so the function is the per-component pipelines
applied to the two velocity fields.  (The C function also returns the
constant `0`, which no caller uses; it is dropped.) -/
def playerLimits (man : Man) : Man :=
  { man with vx := limitVX man.vx, vy := limitVY man.vy }

/-- Bounding-box recompute of `events` (src/game.c lines 51-54). -/
def boxStage (man : Man) : Man :=
  { man with cx0 := man.x, cy0 := man.y,
             cx1 := man.x + man.size_x, cy1 := man.y + man.size_y }

/-- Euler position integration of `events` (src/game.c lines 56-57). -/
def integrateStage (man : Man) : Man :=
  { man with x := man.x + man.vx, y := man.y + man.vy }

/-- Gravity of `events` (src/game.c line 60): `vy += 4`. -/
def gravityStage (man : Man) : Man :=
  { man with vy := man.vy + 4 }

/-- Attack-box anchor update of `events` (src/game.c lines 62-67). -/
def attackStage (man : Man) : Man :=
  { man with att_x := if man.lookDirection = 0 then man.x - 50
                      else man.x + 100 }

/-- The post-collision part of `events` (src/game.c lines 51-67):
bounding-box recompute, Euler position integration, velocity clamp
(`playerLimits`), gravity, attack-box anchor update, in the source's
order. -/
def physicsMan (man : Man) : Man :=
  attackStage (gravityStage (playerLimits (integrateStage (boxStage man))))

/-- `events` (src/game.c lines 45-72): collision pass over every used
platform (using the actor's current, not-yet-refreshed bounding box),
then the physics steps of `physicsMan`. -/
def events (gs : GameState) : GameState :=
  { gs with man := physicsMan (gs.plat.foldl
      (fun m p => (playerCollision m p.cx0 p.cx1 p.cy0 p.cy1).2) gs.man) }

/-- `loadGame` (src/game.c lines 10-42).  The C code never initialises the
actor's `vx`, `vy`, `cx`, `cy`, `att_x`, `att_y` (they hold whatever was in
the stack frame), so the embedding takes them as parameters.  The 40
platforms form a flat floor: platform `i` at `x = -200 + 100*i`, `y = 800`,
size `100 × 100`, with its box precomputed. -/
def loadGame (vx vy cx0 cx1 cy0 cy1 att_x att_y : ℚ) : GameState :=
  { man := { x := 960, y := 540, lookDirection := 1,
             cx0 := cx0, cx1 := cx1, cy0 := cy0, cy1 := cy1,
             size_x := 100, size_y := 200, vx := vx, vy := vy,
             attack := 0, att_sx := 50, att_sy := 50,
             att_x := att_x, att_y := att_y },
    plat := (List.range 40).map fun i =>
      { x := -200 + 100 * (i : ℚ), y := 800,
        size_x := 100, size_y := 100,
        cx0 := -200 + 100 * (i : ℚ), cx1 := -200 + 100 * (i : ℚ) + 100,
        cy0 := 800, cy1 := 800 + 100 } }

/-! ## Helper lemmas about the velocity pipeline -/

namespace Limits

set_option maxHeartbeats 1000000 in
/-- Closed-form characterization of the `vx` pipeline of `playerLimits`. -/
lemma limitVX_eq (v : ℚ) :
    limitVX v =
      if 20 ≤ v then 20
      else if 10 < v then v - 5
      else if -10 ≤ v then 0
      else if -20 < v then v + 5
      else -20 := by
  unfold limitVX snapStage decayStageX clampStage
  split_ifs <;>
    first
      | rfl
      | linarith
      | (simp only [not_and_or, not_lt, not_le] at *
         casesm* _ ∧ _, _ ∨ _ <;> first | rfl | linarith)

set_option maxHeartbeats 1000000 in
/-- Closed-form characterization of the `vy` pipeline of `playerLimits`.
Unlike `vx`, the decay branch fires for every `v ∈ (-5, 20)`, so on
`(-5, 0)` the result is `v - 5` rather than `0`. -/
lemma limitVY_eq (v : ℚ) :
    limitVY v =
      if 20 ≤ v then 20
      else if 10 < v then v - 5
      else if 0 ≤ v then 0
      else if -5 < v then v - 5
      else if -10 ≤ v then 0
      else if -20 < v then v + 5
      else -20 := by
  unfold limitVY snapStage decayStageY clampStage
  split_ifs <;>
    first
      | rfl
      | linarith
      | (simp only [not_and_or, not_lt, not_le] at *
         casesm* _ ∧ _, _ ∨ _ <;> first | rfl | linarith)

/-- The `vx` pipeline always lands in `[-20, 20]`. -/
lemma limitVX_mem (v : ℚ) : -20 ≤ limitVX v ∧ limitVX v ≤ 20 := by
  rw [limitVX_eq]; split_ifs <;> constructor <;> linarith

/-- The `vy` pipeline always lands in `[-20, 20]`. -/
lemma limitVY_mem (v : ℚ) : -20 ≤ limitVY v ∧ limitVY v ≤ 20 := by
  rw [limitVY_eq]; split_ifs <;> constructor <;> linarith

/-- The `vy` pipeline never outputs `-4`, so adding the gravity constant
afterwards never yields `0`. -/
lemma limitVY_add_four_ne_zero (v : ℚ) : limitVY v + 4 ≠ 0 := by
  rw [limitVY_eq]; split_ifs <;> intro h <;> linarith

end Limits

/-! ## Helper lemmas about the collision routine -/

namespace Collision

/-- The X-axis pass produces either no penetration with direction `0`, or a
strictly negative `overlap_x` tagged `1` or `2`. -/
lemma axisX_cases (man : Man) (ox0 ox1 oy0 oy1 : ℚ) :
    ((axisX man ox0 ox1 oy0 oy1).1 = 0 ∧ (axisX man ox0 ox1 oy0 oy1).2 = 0) ∨
    ((axisX man ox0 ox1 oy0 oy1).1 < 0 ∧ (axisX man ox0 ox1 oy0 oy1).2 = 1) ∨
    ((axisX man ox0 ox1 oy0 oy1).1 < 0 ∧ (axisX man ox0 ox1 oy0 oy1).2 = 2) := by
  unfold axisX
  split_ifs with hg h1 h2 <;> simp
  · linarith [h1.1]
  · linarith [h2.1]

/-- The Y-axis pass produces either no penetration with direction `0`, or a
strictly negative `overlap_y` tagged `1` or `2`. -/
lemma axisY_cases (man : Man) (ox0 ox1 oy0 oy1 : ℚ) :
    ((axisY man ox0 ox1 oy0 oy1).1 = 0 ∧ (axisY man ox0 ox1 oy0 oy1).2 = 0) ∨
    ((axisY man ox0 ox1 oy0 oy1).1 < 0 ∧ (axisY man ox0 ox1 oy0 oy1).2 = 1) ∨
    ((axisY man ox0 ox1 oy0 oy1).1 < 0 ∧ (axisY man ox0 ox1 oy0 oy1).2 = 2) := by
  unfold axisY
  split_ifs with hg h1 h2 <;> simp
  · linarith [h1.1]
  · linarith [h2.1]

/-- If the actor's box lies entirely at or above the obstacle's top edge,
both axis passes report no penetration. -/
lemma axisX_of_above (man : Man) (ox0 ox1 oy0 oy1 : ℚ)
    (h0 : man.cy0 ≤ man.cy1) (h1 : man.cy1 ≤ oy0) (h2 : oy0 ≤ oy1) :
    axisX man ox0 ox1 oy0 oy1 = (0, 0) := by
  unfold axisX
  rw [if_neg]
  rintro ((⟨a, b⟩ | ⟨a, b⟩) | (⟨a, b⟩ | ⟨a, b⟩)) <;> linarith

/-- Y-axis counterpart of `axisX_of_above`. -/
lemma axisY_of_above (man : Man) (ox0 ox1 oy0 oy1 : ℚ)
    (h0 : man.cy0 ≤ man.cy1) (h1 : man.cy1 ≤ oy0) :
    axisY man ox0 ox1 oy0 oy1 = (0, 0) := by
  unfold axisY
  split_ifs with hg hi1 hi2
  · linarith [hi1.1]
  · linarith [hi2.2]
  · rfl
  · rfl

/-- An actor box entirely at or above the obstacle is never resolved:
`playerCollision` returns 0 and leaves the actor untouched. -/
lemma playerCollision_above (man : Man) (ox0 ox1 oy0 oy1 : ℚ)
    (h0 : man.cy0 ≤ man.cy1) (h1 : man.cy1 ≤ oy0) (h2 : oy0 ≤ oy1) :
    playerCollision man ox0 ox1 oy0 oy1 = (0, man) := by
  unfold playerCollision
  rw [axisX_of_above man ox0 ox1 oy0 oy1 h0 h1 h2, axisY_of_above man ox0 ox1 oy0 oy1 h0 h1]
  simp

/-- A collision pass over a list of platforms none of which resolves
against the actor leaves the actor unchanged. -/
lemma foldl_collision_id (l : List Platform_x) (m : Man)
    (h : ∀ p ∈ l, (playerCollision m p.cx0 p.cx1 p.cy0 p.cy1).2 = m) :
    l.foldl (fun m p => (playerCollision m p.cx0 p.cx1 p.cy0 p.cy1).2) m = m := by
  induction l with
  | nil => rfl
  | cons p t ih =>
    rw [List.foldl_cons, h p (List.mem_cons_self p t)]
    exact ih fun q hq => h q (List.mem_cons_of_mem p hq)

end Collision

/-- Explicit record form of `physicsMan`: every field of the stepped actor
in terms of the incoming actor's fields. -/
lemma physicsMan_eq (m : Man) :
    physicsMan m =
      { x := m.x + m.vx, y := m.y + m.vy,
        lookDirection := m.lookDirection,
        cx0 := m.x, cx1 := m.x + m.size_x,
        cy0 := m.y, cy1 := m.y + m.size_y,
        size_x := m.size_x, size_y := m.size_y,
        vx := Limits.limitVX m.vx, vy := Limits.limitVY m.vy + 4,
        attack := m.attack, att_sx := m.att_sx, att_sy := m.att_sy,
        att_x := if m.lookDirection = 0 then m.x + m.vx - 50
                 else m.x + m.vx + 100,
        att_y := m.att_y } := rfl

/-! ## Concrete states used by witnesses and counterexamples -/

/-- A concrete actor with both velocity components equal to `-3`. -/
def manC3 : Man :=
  { x := 0, y := 0, lookDirection := 1, cx0 := 0, cx1 := 100, cy0 := 0,
    cy1 := 200, size_x := 100, size_y := 200, vx := -3, vy := -3,
    attack := 0, att_sx := 50, att_sy := 50, att_x := 0, att_y := 0 }

/-- A concrete actor box `[0,100] × [0,100]` away from the obstacle used in
the C6 witness. -/
def manC6 : Man :=
  { x := 0, y := 0, lookDirection := 1, cx0 := 0, cx1 := 100, cy0 := 0,
    cy1 := 100, size_x := 100, size_y := 100, vx := 3, vy := 7,
    attack := 0, att_sx := 50, att_sy := 50, att_x := 0, att_y := 0 }

/-- The actor of the spec's §8 example: box `[100,200] × [100,300]`,
falling with `vy = 5`. -/
def manC7 : Man :=
  { x := 100, y := 100, lookDirection := 1, cx0 := 100, cx1 := 200,
    cy0 := 100, cy1 := 300, size_x := 100, size_y := 200, vx := 0, vy := 5,
    attack := 0, att_sx := 50, att_sy := 50, att_x := 0, att_y := 0 }

/-- A concrete actor with both velocity components equal to `12`. -/
def manC9 : Man :=
  { x := 0, y := 0, lookDirection := 1, cx0 := 0, cx1 := 100, cy0 := 0,
    cy1 := 200, size_x := 100, size_y := 200, vx := 12, vy := 12,
    attack := 0, att_sx := 50, att_sy := 50, att_x := 0, att_y := 0 }

/-- A concrete actor with velocities at the boundary values `5` and `-5`. -/
def manC9w : Man :=
  { x := 0, y := 0, lookDirection := 1, cx0 := 0, cx1 := 100, cy0 := 0,
    cy1 := 200, size_x := 100, size_y := 200, vx := 5, vy := -5,
    attack := 0, att_sx := 50, att_sy := 50, att_x := 0, att_y := 0 }

/-! ## Claims C3, C9 — the velocity clamp -/

/-- **C3, counterexample.**  The claim says every velocity component of
magnitude at most 5 snaps to exactly 0 and that the `vy` pipeline agrees
with the `vx` pipeline.  At `vx = vy = -3` the code gives `vx = 0` but
`vy = -8`: the `vy` decay guard is `vy > -5` (src/game.c line 95), not
`vy > 5`, so `-3` decays to `-8` and escapes the snap window. -/
theorem claimC3_counterexample :
    (playerLimits manC3).vx = 0 ∧ (playerLimits manC3).vy = -8 ∧
    (playerLimits manC3).vy ≠ (playerLimits manC3).vx := by
  norm_num [playerLimits, manC3, Limits.limitVX_eq, Limits.limitVY_eq]

/-- **C3, amended.**  `playerLimits` clamps each component to `[-20, 20]`;
for `vx` it subtracts 5 on `(10, 20)`, adds 5 on `(-20, -10)` and zeroes
`[-10, 10]`; `vy` behaves identically except on `(-5, 0)`, where its decay
branch also fires and the result is `vy - 5` instead of `0`.  The two
pipelines agree exactly outside `(-5, 0)`. -/
theorem claimC3_amended (man : Man) :
    (playerLimits man).vx =
      (if 20 ≤ man.vx then 20
       else if 10 < man.vx then man.vx - 5
       else if -10 ≤ man.vx then 0
       else if -20 < man.vx then man.vx + 5
       else -20) ∧
    (playerLimits man).vy =
      (if 20 ≤ man.vy then 20
       else if 10 < man.vy then man.vy - 5
       else if 0 ≤ man.vy then 0
       else if -5 < man.vy then man.vy - 5
       else if -10 ≤ man.vy then 0
       else if -20 < man.vy then man.vy + 5
       else -20) ∧
    (∀ v : ℚ, Limits.limitVX v = Limits.limitVY v ↔ ¬(-5 < v ∧ v < 0)) := by
  refine ⟨Limits.limitVX_eq man.vx, Limits.limitVY_eq man.vy, fun v => ?_⟩
  constructor
  · intro h
    rintro ⟨a, b⟩
    have hX : Limits.limitVX v = 0 := by
      rw [Limits.limitVX_eq]; split_ifs <;> linarith
    have hY : Limits.limitVY v = v - 5 := by
      rw [Limits.limitVY_eq]; split_ifs <;> linarith
    rw [hX, hY] at h
    linarith
  · intro h
    rcases not_and_or.mp h with h' | h' <;> push_neg at h' <;>
      rw [Limits.limitVX_eq, Limits.limitVY_eq] <;> split_ifs <;> linarith

/-- **C9, counterexample.**  `playerLimits` is not idempotent: at
`vx = vy = 12` one application gives `7` (clamp leaves 12, decay subtracts
5), and a second application decays `7` again and snaps it to `0`. -/
theorem claimC9_counterexample :
    (playerLimits manC9).vx = 7 ∧ (playerLimits (playerLimits manC9)).vx = 0 ∧
    playerLimits (playerLimits manC9) ≠ playerLimits manC9 := by
  norm_num [playerLimits, manC9, Limits.limitVX_eq, Limits.limitVY_eq,
    Man.mk.injEq]

/-- **C9, amended.**  Idempotence fails in general (see the
counterexample) but holds whenever each velocity component lies in the
boundary set `{0, 5, -5, 20, -20}`. -/
theorem claimC9_amended (man : Man)
    (hx : man.vx = 0 ∨ man.vx = 5 ∨ man.vx = -5 ∨ man.vx = 20 ∨ man.vx = -20)
    (hy : man.vy = 0 ∨ man.vy = 5 ∨ man.vy = -5 ∨ man.vy = 20 ∨ man.vy = -20) :
    playerLimits (playerLimits man) = playerLimits man := by
  have base : ∀ m : Man, playerLimits m =
      { m with vx := Limits.limitVX m.vx, vy := Limits.limitVY m.vy } :=
    fun m => rfl
  simp only [base]
  simp [Man.mk.injEq]
  constructor
  · rcases hx with h | h | h | h | h <;> rw [h] <;> norm_num [Limits.limitVX_eq]
  · rcases hy with h | h | h | h | h <;> rw [h] <;> norm_num [Limits.limitVY_eq]

/-- **C9, witness** for the amended theorem at `vx = 5`, `vy = -5`. -/
theorem claimC9_witness :
    playerLimits (playerLimits manC9w) = playerLimits manC9w :=
  claimC9_amended manC9w (Or.inr (Or.inl rfl)) (Or.inr (Or.inr (Or.inl rfl)))

/-! ## Claims C6, C7, C8 — the collision routine -/

open Collision in
/-- **C6.**  If both boxes are well-formed (`low ≤ high`, the spec's stated
precondition) and the two rectangles are separated on both axes (disjoint
or merely touching on each axis), `playerCollision` returns 0 and leaves
the actor — position, velocity and all other fields — unchanged. -/
theorem claimC6 (man : Man) (ox0 ox1 oy0 oy1 : ℚ)
    (hmx : man.cx0 ≤ man.cx1) (hmy : man.cy0 ≤ man.cy1)
    (hox : ox0 ≤ ox1) (hoy : oy0 ≤ oy1)
    (hsepx : man.cx1 ≤ ox0 ∨ ox1 ≤ man.cx0)
    (hsepy : man.cy1 ≤ oy0 ∨ oy1 ≤ man.cy0) :
    playerCollision man ox0 ox1 oy0 oy1 = (0, man) := by
  have hX : axisX man ox0 ox1 oy0 oy1 = (0, 0) := by
    unfold axisX
    rw [if_neg]
    rintro ((⟨a, b⟩ | ⟨a, b⟩) | (⟨a, b⟩ | ⟨a, b⟩)) <;>
      rcases hsepy with h | h <;> linarith
  have hY : axisY man ox0 ox1 oy0 oy1 = (0, 0) := by
    unfold axisY
    rw [if_neg]
    rintro ((⟨a, b⟩ | ⟨a, b⟩) | (⟨a, b⟩ | ⟨a, b⟩)) <;>
      rcases hsepx with h | h <;> linarith
  simp only [playerCollision, hX, hY]
  norm_num

/-- **C6, witness**: a concrete pair of separated boxes. -/
theorem claimC6_witness : playerCollision manC6 200 300 200 300 = (0, manC6) :=
  claimC6 manC6 200 300 200 300 (by norm_num [manC6]) (by norm_num [manC6])
    (by norm_num) (by norm_num) (Or.inl (by norm_num [manC6]))
    (Or.inl (by norm_num [manC6]))

/-- **C7.**  Whenever `playerCollision` returns 3 (a standing resolution),
the actor's top is placed at the platform top minus the actor height; a
strictly falling actor (`vy > 0`) has its `vy` zeroed, and an actor with
`vy ≤ 0` keeps its `vy` unchanged. -/
theorem claimC7 (man : Man) (ox0 ox1 oy0 oy1 : ℚ)
    (h3 : (playerCollision man ox0 ox1 oy0 oy1).1 = 3) :
    (playerCollision man ox0 ox1 oy0 oy1).2.y = oy0 - man.size_y ∧
    (0 < man.vy → (playerCollision man ox0 ox1 oy0 oy1).2.vy = 0) ∧
    (man.vy ≤ 0 → (playerCollision man ox0 ox1 oy0 oy1).2.vy = man.vy) := by
  simp only [playerCollision] at h3 ⊢
  generalize hA : Collision.axisX man ox0 ox1 oy0 oy1 = A at h3 ⊢
  generalize hB : Collision.axisY man ox0 ox1 oy0 oy1 = B at h3 ⊢
  split_ifs at h3 ⊢ <;> try (exfalso; revert h3; norm_num; done)
  · rename_i hvy
    exact ⟨rfl, fun _ => rfl, fun hle => absurd hvy (not_lt.mpr hle)⟩
  · rename_i hvy
    exact ⟨rfl, fun hpos => absurd hpos hvy, fun _ => rfl⟩

/-- **C7, witness**: the spec's §8 actor falling onto the obstacle
`[150,250] × [280,380]` is resolved standing with its top at
`280 - 200 = 80` and `vy` zeroed. -/
theorem claimC7_witness :
    (playerCollision manC7 150 250 280 380).2.y = 280 - manC7.size_y ∧
    (playerCollision manC7 150 250 280 380).2.vy = 0 := by
  have h := claimC7 manC7 150 250 280 380
    (by norm_num [manC7, playerCollision, Collision.axisX, Collision.axisY,
      Collision.edgeBottom, Collision.edgeTop, Collision.edgeLeft,
      Collision.edgeRight])
  exact ⟨h.1, h.2.1 (by norm_num [manC7])⟩

/-- **C8.**  A single `playerCollision` call never moves the actor on both
axes: either `x` and `vx` are untouched or `y` and `vy` are untouched, and
the sizes, facing direction, attack fields and the cached bounding box are
always untouched. -/
theorem claimC8 (man : Man) (ox0 ox1 oy0 oy1 : ℚ) :
    ((playerCollision man ox0 ox1 oy0 oy1).2.size_x = man.size_x ∧
     (playerCollision man ox0 ox1 oy0 oy1).2.size_y = man.size_y ∧
     (playerCollision man ox0 ox1 oy0 oy1).2.lookDirection = man.lookDirection ∧
     (playerCollision man ox0 ox1 oy0 oy1).2.attack = man.attack ∧
     (playerCollision man ox0 ox1 oy0 oy1).2.att_sx = man.att_sx ∧
     (playerCollision man ox0 ox1 oy0 oy1).2.att_sy = man.att_sy ∧
     (playerCollision man ox0 ox1 oy0 oy1).2.att_x = man.att_x ∧
     (playerCollision man ox0 ox1 oy0 oy1).2.att_y = man.att_y ∧
     (playerCollision man ox0 ox1 oy0 oy1).2.cx0 = man.cx0 ∧
     (playerCollision man ox0 ox1 oy0 oy1).2.cx1 = man.cx1 ∧
     (playerCollision man ox0 ox1 oy0 oy1).2.cy0 = man.cy0 ∧
     (playerCollision man ox0 ox1 oy0 oy1).2.cy1 = man.cy1) ∧
    (((playerCollision man ox0 ox1 oy0 oy1).2.x = man.x ∧
      (playerCollision man ox0 ox1 oy0 oy1).2.vx = man.vx) ∨
     ((playerCollision man ox0 ox1 oy0 oy1).2.y = man.y ∧
      (playerCollision man ox0 ox1 oy0 oy1).2.vy = man.vy)) := by
  simp only [playerCollision]
  set A := Collision.axisX man ox0 ox1 oy0 oy1 with hA
  set B := Collision.axisY man ox0 ox1 oy0 oy1 with hB
  split_ifs <;> simp

/-! ## Claim C10 — velocity bound after `events` -/

/-- **C10.**  After any `events` call, on any state, `vx ∈ [-20, 20]` and
`vy ∈ [-16, 24]`: `vx` is exactly a `playerLimits` output and `vy` is a
`playerLimits` output plus the gravity constant 4. -/
theorem claimC10 (gs : GameState) :
    -20 ≤ (events gs).man.vx ∧ (events gs).man.vx ≤ 20 ∧
    -16 ≤ (events gs).man.vy ∧ (events gs).man.vy ≤ 24 := by
  have hman : (events gs).man = physicsMan (gs.plat.foldl
      (fun m p => (playerCollision m p.cx0 p.cx1 p.cy0 p.cy1).2) gs.man) := rfl
  obtain ⟨ha, hb⟩ := Limits.limitVX_mem
    ((gs.plat.foldl (fun m p => (playerCollision m p.cx0 p.cx1 p.cy0 p.cy1).2)
      gs.man).vx)
  obtain ⟨hc, hd⟩ := Limits.limitVY_mem
    ((gs.plat.foldl (fun m p => (playerCollision m p.cx0 p.cx1 p.cy0 p.cy1).2)
      gs.man).vy)
  rw [hman, physicsMan_eq]
  dsimp only
  exact ⟨ha, hb, by linarith, by linarith⟩

/-! ## Claims C1, C2 — the tie-break of the resolution branch -/

/-- A wide, short actor whose box `[0,300] × [0,100]` straddles the
obstacle `[100,200] × [50,150]` horizontally: the X pass reports zero
penetration while the Y pass reports `-50`. -/
def manC1a : Man :=
  { x := 0, y := 0, lookDirection := 1, cx0 := 0, cx1 := 300, cy0 := 0,
    cy1 := 100, size_x := 300, size_y := 100, vx := 0, vy := 5,
    attack := 0, att_sx := 50, att_sy := 50, att_x := 0, att_y := 0 }

/-- An actor whose box `[0,100] × [0,100]` penetrates the obstacle
`[60,300] × [60,300]` by exactly `-40` on both axes. -/
def manC1b : Man :=
  { x := 0, y := 0, lookDirection := 1, cx0 := 0, cx1 := 100, cy0 := 0,
    cy1 := 100, size_x := 100, size_y := 100, vx := 0, vy := 5,
    attack := 0, att_sx := 50, att_sy := 50, att_x := 0, att_y := 0 }

/-- The actor of the spec's §8 example, for claim C2. -/
def manC2 : Man :=
  { x := 100, y := 100, lookDirection := 1, cx0 := 100, cx1 := 200,
    cy0 := 100, cy1 := 300, size_x := 100, size_y := 200, vx := 0, vy := 5,
    attack := 0, att_sx := 50, att_sy := 50, att_x := 0, att_y := 0 }

/-- **C1, counterexample.**  When the X penetration is zero and the Y
penetration is nonzero, the claim says the Y resolution is applied; in the
code the `overlap_x > overlap_y` disjunct (0 > negative) routes the call
into the X branch, whose direction tag is 0, and the call returns 0
without touching the actor.  Likewise for two equal nonzero penetrations
the claim says Y is favored, but no branch guard holds and the call
returns 0 unchanged. -/
theorem claimC1_counterexample :
    (Collision.axisX manC1a 100 200 50 150).1 = 0 ∧
    (Collision.axisY manC1a 100 200 50 150).1 = -50 ∧
    playerCollision manC1a 100 200 50 150 = (0, manC1a) ∧
    (Collision.axisX manC1b 60 300 60 300).1 = -40 ∧
    (Collision.axisY manC1b 60 300 60 300).1 = -40 ∧
    playerCollision manC1b 60 300 60 300 = (0, manC1b) := by
  norm_num [playerCollision, Collision.axisX, Collision.axisY,
    Collision.edgeBottom, Collision.edgeTop, Collision.edgeLeft,
    Collision.edgeRight, manC1a, manC1b]

/-- **C1, amended.**  When the Y penetration is zero and the X penetration
nonzero, the X resolution is applied (result 1 or 2).  But in the two
symmetric situations the claim describes, nothing happens: when the X
penetration is zero and the Y penetration nonzero, and when the two
penetrations are equal and nonzero, the call returns 0 and leaves the
actor unchanged. -/
theorem claimC1_amended (man : Man) (ox0 ox1 oy0 oy1 : ℚ) :
    ((Collision.axisY man ox0 ox1 oy0 oy1).1 = 0 →
      (Collision.axisX man ox0 ox1 oy0 oy1).1 ≠ 0 →
      (playerCollision man ox0 ox1 oy0 oy1).1 = 1 ∨
      (playerCollision man ox0 ox1 oy0 oy1).1 = 2) ∧
    ((Collision.axisX man ox0 ox1 oy0 oy1).1 = 0 →
      (Collision.axisY man ox0 ox1 oy0 oy1).1 ≠ 0 →
      playerCollision man ox0 ox1 oy0 oy1 = (0, man)) ∧
    ((Collision.axisX man ox0 ox1 oy0 oy1).1 =
        (Collision.axisY man ox0 ox1 oy0 oy1).1 →
      (Collision.axisX man ox0 ox1 oy0 oy1).1 ≠ 0 →
      playerCollision man ox0 ox1 oy0 oy1 = (0, man)) := by
  refine ⟨fun hY0 hX => ?_, fun hX0 hY => ?_, fun hEq hne => ?_⟩
  · obtain ⟨hx1, hx2⟩ | ⟨hx1, hx2⟩ | ⟨hx1, hx2⟩ :=
      Collision.axisX_cases man ox0 ox1 oy0 oy1
    · exact absurd hx1 hX
    · left
      simp only [playerCollision]
      rw [if_neg (fun hc => hX hc.1), if_pos (Or.inr hY0), if_pos hx2]
    · right
      simp only [playerCollision]
      rw [if_neg (fun hc => hX hc.1), if_pos (Or.inr hY0),
        if_neg (by rw [hx2]; norm_num), if_pos hx2]
  · obtain ⟨hx1, hx2⟩ | ⟨hx1, hx2⟩ | ⟨hx1, hx2⟩ :=
      Collision.axisX_cases man ox0 ox1 oy0 oy1
    · obtain ⟨hy1, hy2⟩ | ⟨hy1, hy2⟩ | ⟨hy1, hy2⟩ :=
        Collision.axisY_cases man ox0 ox1 oy0 oy1
      · exact absurd hy1 hY
      all_goals
        simp only [playerCollision]
        rw [if_neg (fun hc => hY hc.2),
          if_pos (Or.inl (by rw [hX0]; exact hy1)),
          if_neg (by rw [hx2]; norm_num), if_neg (by rw [hx2]; norm_num)]
    · exact absurd hX0 (ne_of_lt hx1)
    · exact absurd hX0 (ne_of_lt hx1)
  · simp only [playerCollision]
    rw [if_neg (fun hc => hne hc.1),
      if_neg (by
        rintro (hgt | h0)
        · exact absurd hEq (ne_of_gt hgt)
        · exact hne (hEq.trans h0)),
      if_neg (by
        rintro (hgt | h0)
        · exact absurd hEq.symm (ne_of_gt hgt)
        · exact hne h0)]

/-- **C1, witness** for the amended theorem: the zero-X, nonzero-Y
situation returns 0 and changes nothing. -/
theorem claimC1_witness : playerCollision manC1a 100 200 50 150 = (0, manC1a) :=
  (claimC1_amended manC1a 100 200 50 150).2.1
    (by norm_num [Collision.axisX, Collision.edgeBottom, Collision.edgeTop,
      manC1a])
    (by norm_num [Collision.axisY, Collision.edgeLeft, Collision.edgeRight,
      manC1a])

/-- **C2, counterexample.**  In the spec's own example (actor
`[100,200] × [100,300]`, obstacle `[150,250] × [280,380]`) the X
penetration has magnitude 50 and the Y penetration magnitude 20, yet the
code resolves on the Y axis (result 3, `x` untouched, `y := 280 - 200`):
the overlaps are stored negated, so `overlap_y > overlap_x` selects the
axis of *smaller* magnitude, not larger. -/
theorem claimC2_counterexample :
    (Collision.axisX manC2 150 250 280 380).1 = -50 ∧
    (Collision.axisY manC2 150 250 280 380).1 = -20 ∧
    (playerCollision manC2 150 250 280 380).1 = 3 ∧
    (playerCollision manC2 150 250 280 380).2.x = manC2.x ∧
    (playerCollision manC2 150 250 280 380).2.y = 80 := by
  norm_num [playerCollision, Collision.axisX, Collision.axisY,
    Collision.edgeBottom, Collision.edgeTop, Collision.edgeLeft,
    Collision.edgeRight, manC2]

/-- **C2, amended.**  When both penetrations are nonzero (both overlap
values strictly negative) and unequal, the resolution is applied on the
axis whose stored overlap value is *larger* — i.e. the axis of smaller
penetration magnitude: `overlap_y < overlap_x` gives an X resolution
(result 1 or 2) and `overlap_x < overlap_y` a Y resolution (result 3
or 4). -/
theorem claimC2_amended (man : Man) (ox0 ox1 oy0 oy1 : ℚ)
    (hx : (Collision.axisX man ox0 ox1 oy0 oy1).1 < 0)
    (hy : (Collision.axisY man ox0 ox1 oy0 oy1).1 < 0) :
    ((Collision.axisY man ox0 ox1 oy0 oy1).1 <
        (Collision.axisX man ox0 ox1 oy0 oy1).1 →
      (playerCollision man ox0 ox1 oy0 oy1).1 = 1 ∨
      (playerCollision man ox0 ox1 oy0 oy1).1 = 2) ∧
    ((Collision.axisX man ox0 ox1 oy0 oy1).1 <
        (Collision.axisY man ox0 ox1 oy0 oy1).1 →
      (playerCollision man ox0 ox1 oy0 oy1).1 = 3 ∨
      (playerCollision man ox0 ox1 oy0 oy1).1 = 4) := by
  refine ⟨fun hlt => ?_, fun hlt => ?_⟩
  · obtain ⟨hx1, hx2⟩ | ⟨hx1, hx2⟩ | ⟨hx1, hx2⟩ :=
      Collision.axisX_cases man ox0 ox1 oy0 oy1
    · exact absurd hx1 (ne_of_lt hx)
    · left
      simp only [playerCollision]
      rw [if_neg (fun hc => absurd hc.1 (ne_of_lt hx)),
        if_pos (Or.inl hlt), if_pos hx2]
    · right
      simp only [playerCollision]
      rw [if_neg (fun hc => absurd hc.1 (ne_of_lt hx)),
        if_pos (Or.inl hlt), if_neg (by rw [hx2]; norm_num), if_pos hx2]
  · obtain ⟨hy1, hy2⟩ | ⟨hy1, hy2⟩ | ⟨hy1, hy2⟩ :=
      Collision.axisY_cases man ox0 ox1 oy0 oy1
    · exact absurd hy1 (ne_of_lt hy)
    · left
      simp only [playerCollision]
      rw [if_neg (fun hc => absurd hc.1 (ne_of_lt hx)),
        if_neg (by
          rintro (hgt | h0)
          · linarith
          · exact absurd h0 (ne_of_lt hy)),
        if_pos (Or.inl hlt), if_pos hy2]
    · right
      simp only [playerCollision]
      rw [if_neg (fun hc => absurd hc.1 (ne_of_lt hx)),
        if_neg (by
          rintro (hgt | h0)
          · linarith
          · exact absurd h0 (ne_of_lt hy)),
        if_pos (Or.inl hlt), if_neg (by rw [hy2]; norm_num), if_pos hy2]

/-- **C2, witness** for the amended theorem: the spec's example resolves
on the Y axis because `-50 < -20`. -/
theorem claimC2_witness :
    (playerCollision manC2 150 250 280 380).1 = 3 ∨
    (playerCollision manC2 150 250 280 380).1 = 4 :=
  (claimC2_amended manC2 150 250 280 380
    (by norm_num [Collision.axisX, Collision.edgeBottom, Collision.edgeTop,
      manC2])
    (by norm_num [Collision.axisY, Collision.edgeLeft, Collision.edgeRight,
      manC2])).2
    (by norm_num [Collision.axisX, Collision.axisY, Collision.edgeBottom,
      Collision.edgeTop, Collision.edgeLeft, Collision.edgeRight, manC2])

/-! ## Claim C4 — gravity accumulation -/

/-- `events` never touches the platform list. -/
lemma events_plat (gs : GameState) : (events gs).plat = gs.plat := rfl

/-- With no platforms, the collision pass is a no-op and the new `vy` is
the clamp of the old one plus the gravity constant. -/
lemma events_vy_nil (gs : GameState) (h : gs.plat = []) :
    (events gs).man.vy = Limits.limitVY gs.man.vy + 4 := by
  cases gs with
  | mk m p =>
    change p = [] at h
    subst h
    rfl

/-- Once `vy = 4`, every further `events` step on a platform-free world
keeps `vy = 4`: the clamp zeroes the 4 and gravity adds it back. -/
lemma iterate_nil_vy_four (n : ℕ) :
    ∀ gs : GameState, gs.plat = [] → gs.man.vy = 4 →
      ((events^[n]) gs).man.vy = 4 := by
  induction n with
  | zero => intro gs h hv; simpa using hv
  | succ k ih =>
    intro gs h hv
    rw [Function.iterate_succ_apply]
    refine ih (events gs) (by rw [events_plat, h]) ?_
    rw [events_vy_nil gs h, hv]
    norm_num [Limits.limitVY_eq]

/-- A concrete actor at rest, used for the gravity-accumulation claim. -/
def manC4 : Man :=
  { x := 0, y := 0, lookDirection := 1, cx0 := 0, cx1 := 100, cy0 := 0,
    cy1 := 200, size_x := 100, size_y := 200, vx := 0, vy := 0,
    attack := 0, att_sx := 50, att_sy := 50, att_x := 0, att_y := 0 }

/-- **C4, counterexample.**  Starting from `vy = 0` with no platforms,
after 2 `events` steps the claim predicts `vy = min 20 (4*2) = 8`, but the
code gives `vy = 4`: each frame the clamp's snap stage zeroes the
accumulated 4 before gravity re-adds it. -/
theorem claimC4_counterexample :
    ((events^[2]) { man := manC4, plat := [] }).man.vy = 4 ∧
    min (20 : ℚ) (4 * 2) = 8 ∧
    ((events^[2]) { man := manC4, plat := [] }).man.vy ≠ min (20 : ℚ) (4 * 2) := by
  have h1 : ((events^[2]) { man := manC4, plat := [] }).man.vy = 4 := by
    rw [Function.iterate_succ_apply]
    refine iterate_nil_vy_four 1 _ rfl ?_
    rw [events_vy_nil _ rfl]
    dsimp only
    norm_num [manC4, Limits.limitVY_eq]
  refine ⟨h1, by norm_num, by rw [h1]; norm_num⟩

/-- **C4, amended.**  With no collisions and no input, starting from
`vy = 0`, the vertical velocity at the end of every `events` call is the
constant 4 for all `N ≥ 1` (never `min 20 (4N)`): the `vy` pipeline maps
both 0 and 4 to 0 and gravity then adds 4. -/
theorem claimC4_amended (man : Man) (h0 : man.vy = 0) (N : ℕ) (hN : 1 ≤ N) :
    ((events^[N]) { man := man, plat := [] }).man.vy = 4 := by
  obtain ⟨k, rfl⟩ : ∃ k, N = k + 1 := ⟨N - 1, (Nat.succ_pred_eq_of_pos hN).symm⟩
  rw [Function.iterate_succ_apply]
  refine iterate_nil_vy_four k (events { man := man, plat := [] }) rfl ?_
  rw [events_vy_nil _ rfl]
  dsimp only
  rw [h0]
  norm_num [Limits.limitVY_eq]

/-- **C4, witness** for the amended theorem at `N = 3`. -/
theorem claimC4_witness :
    ((events^[3]) { man := manC4, plat := [] }).man.vy = 4 :=
  claimC4_amended manC4 rfl 3 (by norm_num)

/-! ## Claim C5 — the end-to-end drop onto the floor

The scenario of the claim: the `loadGame` world (40 platforms forming a
flat floor at `y = 800`), the actor moved to `y = 0` with `vx = vy = 0`
and a bounding box consistent with its position (the C code leaves those
fields uninitialised), then `events` iterated with no input. -/

/-- Platform `i` of the default floor, exactly as built by the `loadGame`
loop. -/
def platAt (i : ℕ) : Platform_x :=
  { x := -200 + 100 * (i : ℚ), y := 800,
    size_x := 100, size_y := 100,
    cx0 := -200 + 100 * (i : ℚ), cx1 := -200 + 100 * (i : ℚ) + 100,
    cy0 := 800, cy1 := 800 + 100 }

/-- The default 40-platform floor. -/
def floorPlats : List Platform_x := (loadGame 0 0 960 1060 0 200 0 0).plat

lemma floorPlats_eq : floorPlats = (List.range 40).map platAt := rfl

/-- The initial state of the drop scenario. -/
def s0C5 : GameState :=
  { loadGame 0 0 960 1060 0 200 0 0 with
    man := { (loadGame 0 0 960 1060 0 200 0 0).man with y := 0 } }

/-- The state after `n` frames of the drop scenario. -/
def stC5 (n : ℕ) : GameState := events^[n] s0C5

/-- The falling states: after `k + 2` frames (while still above the
floor) the actor is at `y = 4(k+1)` with `vy = 4` and a box lagging one
frame behind. -/
def fallG (k : ℕ) : GameState :=
  { man := { x := 960, y := 4 * ((k : ℚ) + 1), lookDirection := 1,
             cx0 := 960, cx1 := 1060,
             cy0 := 4 * (k : ℚ), cy1 := 4 * (k : ℚ) + 200,
             size_x := 100, size_y := 200, vx := 0, vy := 4,
             attack := 0, att_sx := 50, att_sy := 50,
             att_x := 1060, att_y := 0 },
    plat := floorPlats }

/-- The recurring post-landing state: standing on the floor with the box
freshly clamped to `[600, 800]` and `vy = 4` (gravity re-added after the
clamp zeroed it). -/
def restG : GameState :=
  { man := { x := 960, y := 600, lookDirection := 1,
             cx0 := 960, cx1 := 1060, cy0 := 600, cy1 := 800,
             size_x := 100, size_y := 200, vx := 0, vy := 4,
             attack := 0, att_sx := 50, att_sy := 50,
             att_x := 1060, att_y := 0 },
    plat := floorPlats }

namespace Collision

/-- Horizontally separated boxes never resolve: the Y pass's gate and the
X pass's inner window tests all fail. -/
lemma playerCollision_xsep (m : Man) (ox0 ox1 oy0 oy1 : ℚ)
    (h0 : m.cx0 ≤ m.cx1) (h1 : ox0 ≤ ox1)
    (hsep : m.cx1 ≤ ox0 ∨ ox1 ≤ m.cx0) :
    playerCollision m ox0 ox1 oy0 oy1 = (0, m) := by
  have hY : axisY m ox0 ox1 oy0 oy1 = (0, 0) := by
    unfold axisY
    rw [if_neg]
    rintro ((⟨a, b⟩ | ⟨a, b⟩) | (⟨a, b⟩ | ⟨a, b⟩)) <;>
      rcases hsep with h | h <;> linarith
  have hX : axisX m ox0 ox1 oy0 oy1 = (0, 0) := by
    unfold axisX
    split_ifs with hg hi1 hi2
    · rcases hsep with h | h
      · linarith [hi1.1]
      · linarith [hi1.2]
    · rcases hsep with h | h
      · linarith [hi2.2]
      · linarith [hi2.1]
    · rfl
    · rfl
  simp only [playerCollision, hX, hY]
  norm_num

end Collision

/-- Every floor platform spans `[800, 900]` vertically. -/
lemma floorPlats_cy {p : Platform_x} (hp : p ∈ floorPlats) :
    p.cy0 = 800 ∧ p.cy1 = 900 := by
  rw [floorPlats_eq] at hp
  obtain ⟨i, -, rfl⟩ := List.mem_map.mp hp
  exact ⟨rfl, by norm_num [platAt]⟩

/-- While the actor's cached box is entirely at or above the floor line,
the whole collision pass over the floor is a no-op. -/
lemma fold_miss (m : Man) (h0 : m.cy0 ≤ m.cy1) (h1 : m.cy1 ≤ 800) :
    floorPlats.foldl
      (fun m p => (playerCollision m p.cx0 p.cx1 p.cy0 p.cy1).2) m = m := by
  refine Collision.foldl_collision_id _ _ fun p hp => ?_
  obtain ⟨hcy0, hcy1⟩ := floorPlats_cy hp
  rw [Collision.playerCollision_above m p.cx0 p.cx1 p.cy0 p.cy1 h0
    (by rw [hcy0]; exact h1) (by rw [hcy0, hcy1]; norm_num)]

/-- Rewrites `events` once the collision fold has been computed. -/
lemma events_of_fold (gs : GameState) (m : Man)
    (hm : gs.plat.foldl
      (fun m p => (playerCollision m p.cx0 p.cx1 p.cy0 p.cy1).2) gs.man = m) :
    events gs = { gs with man := physicsMan m } := by
  simp only [events, hm]

/-- One falling frame: as long as the cached box bottom `4k + 200` is at
or above the floor (`k ≤ 150`), `events` maps `fallG k` to
`fallG (k+1)`. -/
lemma fallG_step (k : ℕ) (hk : k ≤ 150) :
    events (fallG k) = fallG (k + 1) := by
  have hq : (k : ℚ) ≤ 150 := by exact_mod_cast hk
  have hfold : (fallG k).plat.foldl
      (fun m p => (playerCollision m p.cx0 p.cx1 p.cy0 p.cy1).2)
      (fallG k).man = (fallG k).man := by
    refine fold_miss _ ?_ ?_ <;> dsimp [fallG] <;> linarith
  rw [events_of_fold _ _ hfold]
  simp only [physicsMan_eq, fallG, GameState.mk.injEq, Man.mk.injEq]
  norm_num [Limits.limitVX_eq, Limits.limitVY_eq]
  ring

/-- The actor immediately after the landing collision pass: position and
velocity resolved by platform 11 (and confirmed by platform 12), box still
the stale pre-landing one. -/
def landMan : Man :=
  { x := 960, y := 600, lookDirection := 1, cx0 := 960, cx1 := 1060,
    cy0 := 604, cy1 := 804, size_x := 100, size_y := 200, vx := 0, vy := 0,
    attack := 0, att_sx := 50, att_sy := 50, att_x := 1060, att_y := 0 }

/-- The landing collision pass: platforms 0-10 and 13-39 are horizontally
separated from the actor, platform 11 performs the standing resolution,
and platform 12 re-resolves to the same values. -/
lemma land_fold :
    floorPlats.foldl (fun m p => (playerCollision m p.cx0 p.cx1 p.cy0 p.cy1).2)
      (fallG 151).man = landMan := by
  have hsplit : List.range 40 =
      (List.range 11 ++ [11]) ++ ([12] ++ (List.range 27).map (fun j => 13 + j)) := by
    decide
  have hA : ((List.range 11).map platAt).foldl
      (fun m p => (playerCollision m p.cx0 p.cx1 p.cy0 p.cy1).2)
      (fallG 151).man = (fallG 151).man := by
    refine Collision.foldl_collision_id _ _ fun p hp => ?_
    obtain ⟨i, hi, rfl⟩ := List.mem_map.mp hp
    have hq : (i : ℚ) ≤ 10 := by
      exact_mod_cast Nat.lt_succ_iff.mp (List.mem_range.mp hi)
    have hx : playerCollision (fallG 151).man (platAt i).cx0 (platAt i).cx1
        (platAt i).cy0 (platAt i).cy1 = (0, (fallG 151).man) :=
      Collision.playerCollision_xsep _ _ _ _ _
        (by norm_num [fallG]) (by dsimp [platAt]; linarith)
        (Or.inr (by dsimp [platAt, fallG]; linarith))
    rw [hx]
  have h11 : (playerCollision (fallG 151).man (platAt 11).cx0 (platAt 11).cx1
      (platAt 11).cy0 (platAt 11).cy1).2 = landMan := by
    norm_num [playerCollision, Collision.axisX, Collision.axisY,
      Collision.edgeBottom, Collision.edgeTop, Collision.edgeLeft,
      Collision.edgeRight, fallG, platAt, landMan]
  have h12 : (playerCollision landMan (platAt 12).cx0 (platAt 12).cx1
      (platAt 12).cy0 (platAt 12).cy1).2 = landMan := by
    norm_num [playerCollision, Collision.axisX, Collision.axisY,
      Collision.edgeBottom, Collision.edgeTop, Collision.edgeLeft,
      Collision.edgeRight, platAt, landMan]
  have hB : (((List.range 27).map (fun j => 13 + j)).map platAt).foldl
      (fun m p => (playerCollision m p.cx0 p.cx1 p.cy0 p.cy1).2)
      landMan = landMan := by
    refine Collision.foldl_collision_id _ _ fun p hp => ?_
    obtain ⟨i, hi, rfl⟩ := List.mem_map.mp hp
    obtain ⟨j, hj, rfl⟩ := List.mem_map.mp hi
    have hq : (0 : ℚ) ≤ (j : ℚ) := Nat.cast_nonneg j
    have hx : playerCollision landMan (platAt (13 + j)).cx0 (platAt (13 + j)).cx1
        (platAt (13 + j)).cy0 (platAt (13 + j)).cy1 = (0, landMan) :=
      Collision.playerCollision_xsep _ _ _ _ _
        (by norm_num [landMan]) (by dsimp [platAt]; linarith)
        (Or.inl (by dsimp [platAt, landMan]; push_cast; linarith))
    rw [hx]
  rw [floorPlats_eq, hsplit]
  simp only [List.map_append, List.map_cons, List.map_nil,
    List.foldl_append, List.foldl_cons, List.foldl_nil]
  rw [hA, h11, h12, hB]

/-- The landing frame: `events` maps the last falling state to the
standing state. -/
lemma land_step : events (fallG 151) = restG := by
  rw [events_of_fold _ _ land_fold]
  simp only [physicsMan_eq, fallG, restG, landMan, GameState.mk.injEq,
    Man.mk.injEq]
  norm_num [Limits.limitVX_eq, Limits.limitVY_eq]

/-- The standing frame: the refreshed box `[600, 800]` only touches the
floor, so nothing resolves and the actor integrates 4 pixels down
again. -/
lemma rest_step : events restG = fallG 150 := by
  have hfold : restG.plat.foldl
      (fun m p => (playerCollision m p.cx0 p.cx1 p.cy0 p.cy1).2)
      restG.man = restG.man :=
    fold_miss _ (by norm_num [restG]) (by norm_num [restG])
  rw [events_of_fold _ _ hfold]
  simp only [physicsMan_eq, restG, fallG, GameState.mk.injEq, Man.mk.injEq]
  norm_num [Limits.limitVX_eq, Limits.limitVY_eq]

set_option maxRecDepth 40000 in
/-- The first two frames of the drop: from the initial state to `fallG 0`. -/
lemma stC5_two : stC5 2 = fallG 0 := by
  have hman : s0C5.man =
      { x := 960, y := 0, lookDirection := 1, cx0 := 960, cx1 := 1060,
        cy0 := 0, cy1 := 200, size_x := 100, size_y := 200, vx := 0, vy := 0,
        attack := 0, att_sx := 50, att_sy := 50, att_x := 0, att_y := 0 } := rfl
  have e1 : events s0C5 =
      { man := { x := 960, y := 0, lookDirection := 1, cx0 := 960, cx1 := 1060,
                 cy0 := 0, cy1 := 200, size_x := 100, size_y := 200, vx := 0,
                 vy := 4, attack := 0, att_sx := 50, att_sy := 50,
                 att_x := 1060, att_y := 0 }, plat := floorPlats } := by
    have hfold : s0C5.plat.foldl
        (fun m p => (playerCollision m p.cx0 p.cx1 p.cy0 p.cy1).2)
        s0C5.man = s0C5.man :=
      fold_miss _ (by rw [hman]; norm_num) (by rw [hman]; norm_num)
    rw [events_of_fold _ _ hfold, hman, physicsMan_eq]
    congr 1
    norm_num [Man.mk.injEq, Limits.limitVX_eq, Limits.limitVY_eq]
  have e2 : events
      { man := { x := 960, y := 0, lookDirection := 1, cx0 := 960, cx1 := 1060,
                 cy0 := 0, cy1 := 200, size_x := 100, size_y := 200, vx := 0,
                 vy := 4, attack := 0, att_sx := 50, att_sy := 50,
                 att_x := 1060, att_y := 0 }, plat := floorPlats } = fallG 0 := by
    have hfold : floorPlats.foldl
        (fun m p => (playerCollision m p.cx0 p.cx1 p.cy0 p.cy1).2)
        ({ x := 960, y := 0, lookDirection := 1, cx0 := 960, cx1 := 1060,
           cy0 := 0, cy1 := 200, size_x := 100, size_y := 200, vx := 0,
           vy := 4, attack := 0, att_sx := 50, att_sy := 50,
           att_x := 1060, att_y := 0 } : Man) =
        { x := 960, y := 0, lookDirection := 1, cx0 := 960, cx1 := 1060,
          cy0 := 0, cy1 := 200, size_x := 100, size_y := 200, vx := 0,
          vy := 4, attack := 0, att_sx := 50, att_sy := 50,
          att_x := 1060, att_y := 0 } :=
      fold_miss _ (by norm_num) (by norm_num)
    rw [events_of_fold _ _ hfold, physicsMan_eq]
    simp only [fallG]
    congr 1
    norm_num [Man.mk.injEq, Limits.limitVX_eq, Limits.limitVY_eq]
  show events (events s0C5) = fallG 0
  rw [e1, e2]

/-- The whole falling phase: `stC5 (k+2) = fallG k` for every `k ≤ 151`. -/
lemma stC5_fall (k : ℕ) (hk : k ≤ 151) : stC5 (k + 2) = fallG k := by
  induction k with
  | zero => exact stC5_two
  | succ n ih =>
    have h1 : stC5 (n + 1 + 2) = events (stC5 (n + 2)) :=
      Function.iterate_succ_apply' events (n + 2) s0C5
    rw [h1, ih (by omega)]
    exact fallG_step n (by omega)

/-- The `vy` produced by the physics steps is always a clamp output plus
the gravity constant. -/
lemma physicsMan_vy (m : Man) :
    (physicsMan m).vy = Limits.limitVY m.vy + 4 := rfl

/-- At the end of every `events` call, `vy` is never 0: the clamp never
outputs `-4`, so adding the gravity constant never lands on 0. -/
lemma events_vy_ne_zero (gs : GameState) : (events gs).man.vy ≠ 0 := by
  have h : (events gs).man.vy = Limits.limitVY
      ((gs.plat.foldl (fun m p => (playerCollision m p.cx0 p.cx1 p.cy0 p.cy1).2)
        gs.man).vy) + 4 := rfl
  rw [h]
  exact Limits.limitVY_add_four_ne_zero _

/-- **C5, counterexample.**  In the drop scenario there is no frame after
which the actor is at rest with `y = 800 - size_y` and `vy = 0` at the end
of every `events` call: the end-of-frame `vy` is never 0 at all, because
`events` adds the gravity constant 4 after the velocity clamp, whose
output is never `-4`. -/
theorem claimC5_counterexample :
    ¬ ∃ K : ℕ, ∀ n, K ≤ n →
      (stC5 n).man.y = 800 - (stC5 n).man.size_y ∧ (stC5 n).man.vy = 0 := by
  rintro ⟨K, h⟩
  have h1 := (h (K + 1) (Nat.le_succ K)).2
  rw [show stC5 (K + 1) = events (stC5 K) from
    Function.iterate_succ_apply' events K s0C5] at h1
  exact events_vy_ne_zero _ h1

/-- **C5, amended.**  The drop does reach a steady state, but it is a
period-3 cycle, not rest: from frame 152 on the state repeats every 3
frames, the end-of-frame `vy` is always 4, and `y` cycles through
604, 608, 600; the actor stands exactly at `y = 800 - size_y = 600` at
frame 154 (and every third frame after). -/
theorem claimC5_amended :
    (∀ n, 152 ≤ n → stC5 (n + 3) = stC5 n) ∧
    (∀ n, 152 ≤ n → (stC5 n).man.vy = 4 ∧
      ((stC5 n).man.y = 600 ∨ (stC5 n).man.y = 604 ∨ (stC5 n).man.y = 608)) ∧
    (stC5 154).man.y = 800 - (stC5 154).man.size_y ∧
    (stC5 154).man.vy = 4 := by
  have h152 : stC5 152 = fallG 150 := stC5_fall 150 (by norm_num)
  have h153 : stC5 153 = events (stC5 152) :=
    Function.iterate_succ_apply' events 152 s0C5
  have h153' : stC5 153 = fallG 151 := by
    rw [h153, h152, fallG_step 150 (by norm_num)]
  have h154 : stC5 154 = restG := by
    have : stC5 154 = events (stC5 153) :=
      Function.iterate_succ_apply' events 153 s0C5
    rw [this, h153', land_step]
  have cycle : ∀ n, 152 ≤ n →
      stC5 n = fallG 150 ∨ stC5 n = fallG 151 ∨ stC5 n = restG := by
    intro n hn
    induction n, hn using Nat.le_induction with
    | base => exact Or.inl h152
    | succ n hn ih =>
      have hs : stC5 (n + 1) = events (stC5 n) :=
        Function.iterate_succ_apply' events n s0C5
      rcases ih with h | h | h
      · exact Or.inr (Or.inl (by rw [hs, h, fallG_step 150 (by norm_num)]))
      · exact Or.inr (Or.inr (by rw [hs, h, land_step]))
      · exact Or.inl (by rw [hs, h, rest_step])
  refine ⟨?_, ?_, ?_, ?_⟩
  · have t150 : events (events (events (fallG 150))) = fallG 150 := by
      rw [fallG_step 150 (by norm_num), land_step, rest_step]
    have t151 : events (events (events (fallG 151))) = fallG 151 := by
      rw [land_step, rest_step, fallG_step 150 (by norm_num)]
    have tR : events (events (events restG)) = restG := by
      rw [rest_step, fallG_step 150 (by norm_num), land_step]
    intro n hn
    have h3 : stC5 (n + 3) = events (events (events (stC5 n))) := by
      have a1 : stC5 (n + 1) = events (stC5 n) :=
        Function.iterate_succ_apply' events n s0C5
      have a2 : stC5 (n + 2) = events (stC5 (n + 1)) :=
        Function.iterate_succ_apply' events (n + 1) s0C5
      have a3 : stC5 (n + 3) = events (stC5 (n + 2)) :=
        Function.iterate_succ_apply' events (n + 2) s0C5
      rw [a3, a2, a1]
    rcases cycle n hn with h | h | h <;> rw [h3, h]
    · exact t150
    · exact t151
    · exact tR
  · intro n hn
    rcases cycle n hn with h | h | h <;> rw [h] <;>
      norm_num [fallG, restG]
  · rw [h154]; norm_num [restG]
  · rw [h154]; norm_num [restG]

/-- **C5, witness** for the amended theorem: the period-3 recurrence at
frame 152. -/
theorem claimC5_witness : stC5 (152 + 3) = stC5 152 :=
  claimC5_amended.1 152 (le_refl 152)
